import Mathlib

/-!
Verification of `bedrock-demo.py` against its specification.

Python strings are modelled as `List Char`; the relevant `str` methods
(`startswith`, `split`, `int(...)` parsing) are embedded as executable Lean
functions.  Exceptions are modelled with `Except`; a caught exception is an
`Except.error` value absorbed by the handler that catches it.
-/

/-! ### Python string primitives used by `verify_private_connection` -/

/-- Model of Python `str.startswith(p)` on the char-list view of strings. -/
def pyStartswith : List Char → List Char → Bool
  | [], _ => true
  | _ :: _, [] => false
  | p :: ps, c :: cs => (p == c) && pyStartswith ps cs

/-- Model of Python `s.split(".")`: splits at every `'.'`, keeping empty
pieces, so `splitOnDot "172." = ["172", ""]` and `splitOnDot "" = [""]`. -/
def splitOnDot : List Char → List (List Char)
  | [] => [[]]
  | c :: rest =>
    if c = '.' then [] :: splitOnDot rest
    else
      match splitOnDot rest with
      | [] => [[c]]
      | t :: ts => (c :: t) :: ts

/-- Numeric value of a digit string, most significant digit first
(only meaningful when every char is a decimal digit). -/
def digitsVal (s : List Char) : Nat :=
  s.foldl (fun a c => 10 * a + (c.toNat - 48)) 0

/-- Parse a nonempty all-digit string to a `Nat`; `none` otherwise. -/
def digitsToNat (s : List Char) : Option Nat :=
  if s = [] then none
  else if s.all Char.isDigit then some (digitsVal s) else none

/-- Model of Python `int(s)` on the strings this program feeds it:
an optional sign followed by at least one decimal digit; anything else
raises `ValueError`, modelled as `none`. -/
def pyInt : List Char → Option Int
  | [] => none
  | c :: rest =>
    if c = '-' then (digitsToNat rest).map fun n => -(n : Int)
    else if c = '+' then (digitsToNat rest).map fun n => (n : Int)
    else (digitsToNat (c :: rest)).map fun n => (n : Int)

/-! ### The connectivity classifier (lines 12-38 of `bedrock-demo.py`) -/

/-- Exceptions that the classification expression itself can raise:
`IndexError` from `endpoint_ip.split(".")[1]` and `ValueError` from
`int(...)`. -/
inductive ClfExn where
  | indexError
  | valueError
deriving DecidableEq

/-- Exceptions of the DNS resolution step (`socket.gethostbyname`):
name not found, network unreachable, timeout. -/
inductive SocketError where
  | gaierror
  | unreachable
  | timedOut
deriving DecidableEq

/-- The classification expression of lines 23-27:
`any([ip.startswith("10."), ip.startswith("172.") and 16 <= int(ip.split(".")[1]) <= 31, ip.startswith("192.0.")])`.
Python's `and` short-circuits, so `int` runs only when the `"172."` test
succeeded; an exception from `[1]` or `int` propagates out of the list
construction. -/
def evalIsPrivate (ip : List Char) : Except ClfExn Bool :=
  if pyStartswith ['1', '7', '2', '.'] ip then
    match (splitOnDot ip).get? 1 with
    | none => Except.error ClfExn.indexError
    | some oct =>
      match pyInt oct with
      | none => Except.error ClfExn.valueError
      | some n =>
        Except.ok (pyStartswith ['1', '0', '.'] ip
          || (decide (16 ≤ n) && decide (n ≤ 31))
          || pyStartswith ['1', '9', '2', '.', '0', '.'] ip)
  else
    Except.ok (pyStartswith ['1', '0', '.'] ip
      || false
      || pyStartswith ['1', '9', '2', '.', '0', '.'] ip)

/-- `verify_private_connection`, parameterised by the outcome of the DNS
resolution of `bedrock.us-east-1.amazonaws.com`.  The single
`except Exception` handler catches both the socket errors and any
exception raised while classifying, and returns `False`. -/
def verify_private_connection (dns : Except SocketError (List Char)) : Bool :=
  match dns with
  | Except.error _ => false
  | Except.ok ip =>
    match evalIsPrivate ip with
    | Except.error _ => false
    | Except.ok b => b

/-- A syntactically well-formed decimal octet: nonempty, all digits,
value at most 255. -/
def IsOctetStr (x : List Char) : Prop :=
  x ≠ [] ∧ x.all Char.isDigit = true ∧ digitsVal x ≤ 255

/-- A dotted-quad IPv4 address string: four octet strings joined by dots. -/
def IsDottedQuad (s : List Char) : Prop :=
  ∃ A B C D : List Char,
    IsOctetStr A ∧ IsOctetStr B ∧ IsOctetStr C ∧ IsOctetStr D ∧
    s = A ++ '.' :: (B ++ '.' :: (C ++ '.' :: D))

/-- The "second octet, parsed as an integer" of the claim:
`int(ip.split(".")[1])` as an optional value. -/
def secondOctetInt (s : List Char) : Option Int :=
  match (splitOnDot s).get? 1 with
  | none => none
  | some oct => pyInt oct

/-! ### Model inventory data (lines 72-107 of `bedrock-demo.py`) -/

/-- The `modelLifecycle` sub-dictionary of a model summary. -/
structure ModelLifecycle where
  status : Option String
deriving DecidableEq

/-- One raw model entry of a `modelSummaries` page.  `Option` marks the keys
the code reads through `.get` (or that may be absent in the response). -/
structure ModelSummary where
  modelId : Option String
  providerName : Option String
  modelLifecycle : Option ModelLifecycle
  inputModalities : Option (List String)
  outputModalities : Option (List String)
deriving DecidableEq

/-- The normalized record appended to `enabled_models` (lines 90-95). -/
structure EnabledModel where
  modelId : String
  provider : String
  inputModalities : List String
  outputModalities : List String
deriving DecidableEq

/-- Exceptions crossing `list_foundation_models`: `botocore` `ClientError`
with its code and message, `KeyError` from a hard dictionary lookup, and any
other unexpected exception. -/
inductive PyErr where
  | clientError (code message : String)
  | keyError (key : String)
  | otherError (message : String)
deriving DecidableEq

/-- Lookup chain of line 89: `model.get('modelLifecycle', dict()).get('status')`. -/
def lifecycleStatus (m : ModelSummary) : Option String :=
  (m.modelLifecycle.getD ⟨none⟩).status

/-- Body of the inner loop, lines 89-95: filter on `'ACTIVE'`, then build the
record.  `model['modelId']` and `model['providerName']` are hard lookups that
raise `KeyError` when absent; the modality fields default to `[]`. -/
def processModel (m : ModelSummary) (acc : List EnabledModel) :
    Except PyErr (List EnabledModel) :=
  if lifecycleStatus m = some "ACTIVE" then
    match m.modelId with
    | none => Except.error (PyErr.keyError "modelId")
    | some mid =>
      match m.providerName with
      | none => Except.error (PyErr.keyError "providerName")
      | some prov =>
        Except.ok (acc ++ [⟨mid, prov, m.inputModalities.getD [], m.outputModalities.getD []⟩])
  else Except.ok acc

/-- The loop over `page['modelSummaries']` (line 88). -/
def processPage : List ModelSummary → List EnabledModel → Except PyErr (List EnabledModel)
  | [], acc => Except.ok acc
  | m :: rest, acc =>
    match processModel m acc with
    | Except.error e => Except.error e
    | Except.ok acc' => processPage rest acc'

/-- The loop over `paginator.paginate()` (line 87).  Each element of the
input is one page fetch, which may itself raise (e.g. a `ClientError` from
the service); a failed fetch aborts the whole traversal. -/
def runPages : List (Except PyErr (List ModelSummary)) → List EnabledModel →
    Except PyErr (List EnabledModel)
  | [], acc => Except.ok acc
  | p :: rest, acc =>
    match p with
    | Except.error e => Except.error e
    | Except.ok models =>
      match processPage models acc with
      | Except.error e => Except.error e
      | Except.ok acc' => runPages rest acc'

/-- The `try` body of `list_foundation_models` (lines 84-97), starting from
`enabled_models = []`. -/
def list_foundation_models_body (pages : List (Except PyErr (List ModelSummary))) :
    Except PyErr (List EnabledModel) :=
  runPages pages []

/-- Full `list_foundation_models` (lines 72-107): the `except ClientError`
arm logs code and message and re-raises the same error; the
`except Exception` arm logs and re-raises as well. -/
def list_foundation_models (pages : List (Except PyErr (List ModelSummary))) :
    Except PyErr (List EnabledModel) :=
  match list_foundation_models_body pages with
  | Except.ok v => Except.ok v
  | Except.error (PyErr.clientError c msg) => Except.error (PyErr.clientError c msg)
  | Except.error e => Except.error e

/-- The filter predicate of line 89 as a Bool. -/
def isActiveModel (m : ModelSummary) : Bool :=
  decide (lifecycleStatus m = some "ACTIVE")

/-- The record of lines 90-95 described independently of the loop (its id
and provider defaults are never used when the required keys are present). -/
def emittedRecord (m : ModelSummary) : EnabledModel :=
  ⟨m.modelId.getD "", m.providerName.getD "",
    m.inputModalities.getD [], m.outputModalities.getD []⟩

/-! ### Service client factory (lines 40-70 of `bedrock-demo.py`) -/

/-- The `retries` entry of the `botocore` `Config`. -/
structure RetryConfig where
  max_attempts : Nat
  mode : String
deriving DecidableEq

/-- The `botocore` `Config` built at lines 51-58; the returned client is
identified with its configuration, the rest being owned by the SDK. -/
structure Config where
  region_name : String
  retries : RetryConfig
  connect_timeout : Nat
  read_timeout : Nat
  endpoint_url : String
deriving DecidableEq

/-- Default value of the `region_name` parameter (line 40). -/
def default_region_name : String := "us-east-1"

/-- The configuration object of lines 51-58. -/
def bedrock_client_config (region_name : String) : Config :=
  ⟨region_name, ⟨3, "standard"⟩, 5, 10,
    "https://bedrock." ++ region_name ++ ".amazonaws.com"⟩

/-- `get_bedrock_client` (lines 40-70), parameterised by the DNS outcome
feeding `verify_private_connection`; alongside the configuration it returns
the warnings logged, the only output influenced by the connectivity check. -/
def get_bedrock_client_run (dns : Except SocketError (List Char))
    (region_name : String := default_region_name) : Config × List String :=
  let is_private := verify_private_connection dns
  let warnings := if is_private then []
    else ["Traffic might be flowing over public internet!"]
  (bedrock_client_config region_name, warnings)

/-! ### Concrete fixtures used by the witnesses -/

def stub_m1 : ModelSummary := ⟨some "m1", some "p1", some ⟨some "ACTIVE"⟩, none, none⟩

def stub_m2 : ModelSummary := ⟨some "m2", some "p2", some ⟨some "LEGACY"⟩, none, none⟩

def page1_m : ModelSummary := ⟨some "a1", some "pa", some ⟨some "ACTIVE"⟩, none, none⟩

def page2_active : ModelSummary := ⟨some "b1", some "pb", some ⟨some "ACTIVE"⟩, none, none⟩

def page2_inactive : ModelSummary := ⟨some "b2", some "pb", some ⟨some "LEGACY"⟩, none, none⟩

def m_lowercase : ModelSummary := ⟨some "m3", some "p3", some ⟨some "active"⟩, none, none⟩

def m_no_lifecycle : ModelSummary := ⟨some "m4", some "p4", none, none, none⟩

def m_no_status : ModelSummary := ⟨some "m5", some "p5", some ⟨none⟩, none, none⟩

def m_no_id : ModelSummary := ⟨none, some "p6", some ⟨some "ACTIVE"⟩, none, none⟩

def m_no_provider : ModelSummary := ⟨some "m7", none, some ⟨some "ACTIVE"⟩, none, none⟩

/-! ### String lemmas for the classifier -/

lemma isDigit_ne_special (c : Char) (h : c.isDigit = true) :
    c ≠ '-' ∧ c ≠ '+' ∧ c ≠ '.' := by
  refine ⟨?_, ?_, ?_⟩ <;> rintro rfl <;> exact absurd h (by decide)

lemma all_digit_ne_dot {A : List Char} (h : A.all Char.isDigit = true) :
    ∀ c ∈ A, c ≠ '.' := by
  intro c hc
  exact (isDigit_ne_special c (List.all_eq_true.mp h c hc)).2.2

lemma pyStartswith_octet (P Q A R : List Char) (hP : ∀ c ∈ P, c ≠ '.')
    (hA : ∀ c ∈ A, c ≠ '.') :
    pyStartswith (P ++ '.' :: Q) (A ++ '.' :: R)
      = (decide (P = A) && pyStartswith Q R) := by
  induction P generalizing A with
  | nil =>
    cases A with
    | nil => simp [pyStartswith]
    | cons a A' =>
      have ha : a ≠ '.' := hA a (by simp)
      simp [pyStartswith, Ne.symm ha]
  | cons p P' ih =>
    cases A with
    | nil =>
      have hp : p ≠ '.' := hP p (by simp)
      simp [pyStartswith, hp]
    | cons a A' =>
      have hP' : ∀ c ∈ P', c ≠ '.' := fun c hc => hP c (by simp [hc])
      have hA' : ∀ c ∈ A', c ≠ '.' := fun c hc => hA c (by simp [hc])
      by_cases hpa : p = a
      · subst hpa
        simp [pyStartswith, ih A' hP' hA']
      · simp [pyStartswith, hpa]

lemma splitOnDot_append (A r : List Char) (hA : ∀ c ∈ A, c ≠ '.') :
    splitOnDot (A ++ '.' :: r) = A :: splitOnDot r := by
  induction A with
  | nil => simp [splitOnDot]
  | cons a A' ih =>
    have ha : a ≠ '.' := hA a (by simp)
    have ih' := ih fun c hc => hA c (by simp [hc])
    simp [splitOnDot, ha, ih']

lemma pyInt_digits (B : List Char) (h1 : B ≠ []) (h2 : B.all Char.isDigit = true) :
    pyInt B = some ((digitsVal B : Nat) : Int) := by
  cases B with
  | nil => exact absurd rfl h1
  | cons b t =>
    have hb : b.isDigit = true := List.all_eq_true.mp h2 b (by simp)
    obtain ⟨hbm, hbp, _⟩ := isDigit_ne_special b hb
    simp [pyInt, hbm, hbp, digitsToNat, h2]

/-- C1: for every dotted-quad IPv4 address string, the connectivity
classifier returns private = true iff the address starts with "10.", or
starts with "172." and its second octet parsed as an integer lies in
[16, 31], or starts with "192.0."; in particular every address starting
with "192.168." is classified private = false. -/
theorem verify_classifies_dotted_quads (s : List Char) (h : IsDottedQuad s) :
    (verify_private_connection (Except.ok s) = true ↔
      (pyStartswith ['1', '0', '.'] s = true ∨
        (pyStartswith ['1', '7', '2', '.'] s = true ∧
          ∃ n : Int, secondOctetInt s = some n ∧ 16 ≤ n ∧ n ≤ 31) ∨
        pyStartswith ['1', '9', '2', '.', '0', '.'] s = true)) ∧
    (pyStartswith ['1', '9', '2', '.', '1', '6', '8', '.'] s = true →
      verify_private_connection (Except.ok s) = false) := by
  obtain ⟨A, B, C, D, hA, hB, hC, hD, hs⟩ := h
  have hAd := all_digit_ne_dot hA.2.1
  have hBd := all_digit_ne_dot hB.2.1
  have h10 : pyStartswith ['1', '0', '.'] s = decide (['1', '0'] = A) := by
    rw [hs]
    simpa [pyStartswith] using
      pyStartswith_octet ['1', '0'] [] A (B ++ '.' :: (C ++ '.' :: D)) (by decide) hAd
  have h172 : pyStartswith ['1', '7', '2', '.'] s = decide (['1', '7', '2'] = A) := by
    rw [hs]
    simpa [pyStartswith] using
      pyStartswith_octet ['1', '7', '2'] [] A (B ++ '.' :: (C ++ '.' :: D)) (by decide) hAd
  have h1920 : pyStartswith ['1', '9', '2', '.', '0', '.'] s
      = (decide (['1', '9', '2'] = A) && decide (['0'] = B)) := by
    rw [hs]
    have e1 := pyStartswith_octet ['1', '9', '2'] (['0'] ++ '.' :: []) A
      (B ++ '.' :: (C ++ '.' :: D)) (by decide) hAd
    have e2 := pyStartswith_octet ['0'] [] B (C ++ '.' :: D) (by decide) hBd
    simp at e1 e2
    rw [e1, e2]
    simp [pyStartswith]
  have h192168 : pyStartswith ['1', '9', '2', '.', '1', '6', '8', '.'] s
      = (decide (['1', '9', '2'] = A) && decide (['1', '6', '8'] = B)) := by
    rw [hs]
    have e1 := pyStartswith_octet ['1', '9', '2'] (['1', '6', '8'] ++ '.' :: []) A
      (B ++ '.' :: (C ++ '.' :: D)) (by decide) hAd
    have e2 := pyStartswith_octet ['1', '6', '8'] [] B (C ++ '.' :: D) (by decide) hBd
    simp at e1 e2
    rw [e1, e2]
    simp [pyStartswith]
  have hsplit : splitOnDot s = A :: B :: splitOnDot (C ++ '.' :: D) := by
    rw [hs, splitOnDot_append A _ hAd, splitOnDot_append B _ hBd]
  have hsecond : secondOctetInt s = some ((digitsVal B : Nat) : Int) := by
    simp [secondOctetInt, hsplit, pyInt_digits B hB.1 hB.2.1]
  by_cases h172A : ['1', '7', '2'] = A
  · have h172T : pyStartswith ['1', '7', '2', '.'] s = true := by
      rw [h172]
      simp [h172A]
    have heval : evalIsPrivate s
        = Except.ok (pyStartswith ['1', '0', '.'] s
            || (decide (16 ≤ ((digitsVal B : Nat) : Int))
                && decide (((digitsVal B : Nat) : Int) ≤ 31))
            || pyStartswith ['1', '9', '2', '.', '0', '.'] s) := by
      simp [evalIsPrivate, h172T, hsplit, pyInt_digits B hB.1 hB.2.1]
    constructor
    · simp [verify_private_connection, heval, hsecond, h172T]
      tauto
    · intro hcon
      rw [h192168] at hcon
      rw [← h172A] at hcon
      simp at hcon
  · have h172F : pyStartswith ['1', '7', '2', '.'] s = false := by
      rw [h172]
      simp [h172A]
    have heval : evalIsPrivate s
        = Except.ok (pyStartswith ['1', '0', '.'] s
            || false
            || pyStartswith ['1', '9', '2', '.', '0', '.'] s) := by
      simp [evalIsPrivate, h172F]
    constructor
    · simp [verify_private_connection, heval, h172F]
    · intro hcon
      rw [h192168] at hcon
      simp at hcon
      obtain ⟨hA192, hB168⟩ := hcon
      have hc1 : pyStartswith ['1', '0', '.'] s = false := by
        rw [h10, ← hA192]
        decide
      have hc3 : pyStartswith ['1', '9', '2', '.', '0', '.'] s = false := by
        rw [h1920, ← hA192, ← hB168]
        decide
      simp [verify_private_connection, heval, hc1, hc3]

/-- Witness for C1 at the concrete addresses "10.0.0.1" and "192.168.0.1". -/
theorem verify_classifies_dotted_quads_witness :
    verify_private_connection (Except.ok ['1', '0', '.', '0', '.', '0', '.', '1']) = true ∧
    verify_private_connection
      (Except.ok ['1', '9', '2', '.', '1', '6', '8', '.', '0', '.', '1']) = false := by
  constructor
  · exact (verify_classifies_dotted_quads ['1', '0', '.', '0', '.', '0', '.', '1']
      ⟨['1', '0'], ['0'], ['0'], ['1'], ⟨by decide, by decide, by decide⟩,
        ⟨by decide, by decide, by decide⟩, ⟨by decide, by decide, by decide⟩,
        ⟨by decide, by decide, by decide⟩, rfl⟩).1.mpr (Or.inl (by decide))
  · exact (verify_classifies_dotted_quads ['1', '9', '2', '.', '1', '6', '8', '.', '0', '.', '1']
      ⟨['1', '9', '2'], ['1', '6', '8'], ['0'], ['1'], ⟨by decide, by decide, by decide⟩,
        ⟨by decide, by decide, by decide⟩, ⟨by decide, by decide, by decide⟩,
        ⟨by decide, by decide, by decide⟩, rfl⟩).2 (by decide)

/-- C6: for every outcome of the DNS resolver — a resolution failure or any
returned address string, including ones whose second octet does not parse as
an integer — the connectivity check returns a boolean and never raises past
its own boundary; on resolution failure it returns false. -/
theorem verify_total_and_false_on_failure (dns : Except SocketError (List Char)) :
    (verify_private_connection dns = true ∨ verify_private_connection dns = false) ∧
    (∀ e : SocketError, dns = Except.error e → verify_private_connection dns = false) ∧
    (∀ (ip : List Char) (ex : ClfExn), dns = Except.ok ip →
      evalIsPrivate ip = Except.error ex → verify_private_connection dns = false) := by
  refine ⟨?_, ?_, ?_⟩
  · cases hb : verify_private_connection dns
    · exact Or.inr rfl
    · exact Or.inl rfl
  · rintro e rfl
    rfl
  · rintro ip ex rfl hev
    simp [verify_private_connection, hev]

/-- Witness for C6 at the resolved string "172.x.y.z", whose second octet is
not parseable: the internal `ValueError` is absorbed and false comes back. -/
theorem verify_total_and_false_on_failure_witness :
    verify_private_connection (Except.ok ['1', '7', '2', '.', 'x', '.', 'y', '.', 'z']) = false :=
  (verify_total_and_false_on_failure (Except.ok ['1', '7', '2', '.', 'x', '.', 'y', '.', 'z'])).2.2
    ['1', '7', '2', '.', 'x', '.', 'y', '.', 'z'] ClfExn.valueError rfl rfl

/-! ### Inventory lemmas -/

lemma processModel_inactive (m : ModelSummary) (acc : List EnabledModel)
    (h : ¬ lifecycleStatus m = some "ACTIVE") : processModel m acc = Except.ok acc := by
  simp [processModel, h]

lemma processModel_active (m : ModelSummary) (acc : List EnabledModel) (mid prov : String)
    (hs : lifecycleStatus m = some "ACTIVE") (h1 : m.modelId = some mid)
    (h2 : m.providerName = some prov) :
    processModel m acc = Except.ok (acc ++ [emittedRecord m]) := by
  simp [processModel, hs, h1, h2, emittedRecord]

lemma processPage_spec (models : List ModelSummary) (acc : List EnabledModel)
    (hreq : ∀ m ∈ models, lifecycleStatus m = some "ACTIVE" →
      m.modelId ≠ none ∧ m.providerName ≠ none) :
    processPage models acc
      = Except.ok (acc ++ (models.filter isActiveModel).map emittedRecord) := by
  induction models generalizing acc with
  | nil => simp [processPage]
  | cons m ms ih =>
    have hreq' : ∀ m' ∈ ms, lifecycleStatus m' = some "ACTIVE" →
        m'.modelId ≠ none ∧ m'.providerName ≠ none :=
      fun m' hm' => hreq m' (by simp [hm'])
    by_cases hact : lifecycleStatus m = some "ACTIVE"
    · obtain ⟨hid, hprov⟩ := hreq m (by simp) hact
      obtain ⟨mid, hmid⟩ := Option.ne_none_iff_exists'.mp hid
      obtain ⟨prov, hprov'⟩ := Option.ne_none_iff_exists'.mp hprov
      simp [processPage, processModel_active m acc mid prov hact hmid hprov',
        ih _ hreq', List.filter_cons, isActiveModel, hact]
    · simp [processPage, processModel_inactive m acc hact, ih _ hreq',
        List.filter_cons, isActiveModel, hact]

lemma runPages_map_ok (pagesL : List (List ModelSummary)) (acc : List EnabledModel)
    (hreq : ∀ m ∈ pagesL.flatten, lifecycleStatus m = some "ACTIVE" →
      m.modelId ≠ none ∧ m.providerName ≠ none) :
    runPages (pagesL.map Except.ok) acc
      = Except.ok (acc ++ (pagesL.flatten.filter isActiveModel).map emittedRecord) := by
  induction pagesL generalizing acc with
  | nil => simp [runPages]
  | cons P Ps ih =>
    have hreqP : ∀ m ∈ P, lifecycleStatus m = some "ACTIVE" →
        m.modelId ≠ none ∧ m.providerName ≠ none :=
      fun m hm => hreq m (by simp [hm])
    have hreqPs : ∀ m ∈ Ps.flatten, lifecycleStatus m = some "ACTIVE" →
        m.modelId ≠ none ∧ m.providerName ≠ none :=
      fun m hm => hreq m (by simp [hm])
    simp [runPages, processPage_spec P acc hreqP, ih _ hreqPs,
      List.filter_append, List.map_append]

lemma list_foundation_models_spec (pagesL : List (List ModelSummary))
    (hreq : ∀ m ∈ pagesL.flatten, lifecycleStatus m = some "ACTIVE" →
      m.modelId ≠ none ∧ m.providerName ≠ none) :
    list_foundation_models (pagesL.map Except.ok)
      = Except.ok ((pagesL.flatten.filter isActiveModel).map emittedRecord) := by
  have h := runPages_map_ok pagesL [] hreq
  simp at h
  simp [list_foundation_models, list_foundation_models_body, h]

lemma runPages_ok_extend (pre : List (Except PyErr (List ModelSummary))) :
    ∀ (qs : List (Except PyErr (List ModelSummary))) (acc0 acc : List EnabledModel),
      runPages pre acc0 = Except.ok acc →
      runPages (pre ++ qs) acc0 = runPages qs acc := by
  induction pre with
  | nil =>
    intro qs acc0 acc h
    simp [runPages] at h
    subst h
    simp
  | cons p ps ih =>
    intro qs acc0 acc h
    cases p with
    | error e => simp [runPages] at h
    | ok models =>
      cases hpp : processPage models acc0 with
      | error e =>
        rw [runPages, hpp] at h
        exact Except.noConfusion h
      | ok acc1 =>
        rw [runPages, hpp] at h
        rw [List.cons_append, runPages, hpp]
        exact ih qs acc1 acc h

lemma list_foundation_models_error (pages : List (Except PyErr (List ModelSummary)))
    (e : PyErr) (h : list_foundation_models_body pages = Except.error e) :
    list_foundation_models pages = Except.error e := by
  unfold list_foundation_models
  rw [h]
  cases e <;> rfl

/-! ### Claim theorems for the inventory and the client factory -/

/-- C2: a model entry is included in the result iff its lifecycle status
equals the exact string "ACTIVE"; on the stub pages
[{id: m1, status: ACTIVE}, {id: m2, status: LEGACY}] the result is exactly
one EnabledModel, with modelId "m1". -/
theorem list_models_active_iff :
    (∀ (pagesL : List (List ModelSummary)) (l : List EnabledModel),
      (∀ m ∈ pagesL.flatten, lifecycleStatus m = some "ACTIVE" →
        m.modelId ≠ none ∧ m.providerName ≠ none) →
      list_foundation_models (pagesL.map Except.ok) = Except.ok l →
      ∀ e : EnabledModel, e ∈ l ↔
        ∃ m, m ∈ pagesL.flatten ∧ lifecycleStatus m = some "ACTIVE" ∧ e = emittedRecord m) ∧
    list_foundation_models [Except.ok [stub_m1, stub_m2]]
      = Except.ok [⟨"m1", "p1", [], []⟩] := by
  constructor
  · intro pagesL l hreq hok e
    rw [list_foundation_models_spec pagesL hreq] at hok
    injection hok with hok
    subst hok
    simp only [List.mem_map, List.mem_filter, isActiveModel, decide_eq_true_eq]
    constructor
    · rintro ⟨m, ⟨hm, hst⟩, he⟩
      exact ⟨m, hm, hst, he.symm⟩
    · rintro ⟨m, hm, hst, he⟩
      exact ⟨m, ⟨hm, hst⟩, he.symm⟩
  · rfl

/-- Witness for C2 at the stub pages: the single returned record is the
projection of the active model m1. -/
theorem list_models_active_iff_witness :
    (⟨"m1", "p1", [], []⟩ : EnabledModel) ∈ [(⟨"m1", "p1", [], []⟩ : EnabledModel)] :=
  (list_models_active_iff.1 [[stub_m1, stub_m2]] [⟨"m1", "p1", [], []⟩] (by decide)
      list_models_active_iff.2 ⟨"m1", "p1", [], []⟩).mpr
    ⟨stub_m1, by decide, rfl, rfl⟩

/-- C3 counterexample: the code filters on "ACTIVE", not on "active": the
record stub_m1, whose status is "ACTIVE" and hence differs from "active" by
case, is emitted all the same. -/
theorem lowercase_active_claim_false :
    ¬ (∀ (m : ModelSummary) (acc : List EnabledModel),
        ¬ lifecycleStatus m = some "active" → processModel m acc = Except.ok acc) := by
  intro h
  have h1 : processModel stub_m1 [] = Except.ok [] := h stub_m1 [] (by decide)
  have h2 : processModel stub_m1 [] = Except.ok [⟨"m1", "p1", [], []⟩] := rfl
  rw [h1] at h2
  injection h2 with h3
  exact List.noConfusion h3

/-- C3 amended: an EnabledModel is emitted only when the source record's
lifecycle status equals the string "ACTIVE", compared case-sensitively, so a
record whose status differs from "ACTIVE" in any character — including the
lowercase "active" — is never emitted. -/
theorem processModel_requires_ACTIVE (m : ModelSummary) (acc : List EnabledModel)
    (h : ¬ lifecycleStatus m = some "ACTIVE") : processModel m acc = Except.ok acc :=
  processModel_inactive m acc h

/-- Witness for the amended C3 at a record whose status is the lowercase
"active": nothing is emitted. -/
theorem processModel_requires_ACTIVE_witness :
    ¬ lifecycleStatus m_lowercase = some "ACTIVE" ∧
      processModel m_lowercase [] = Except.ok [] :=
  ⟨by decide, processModel_requires_ACTIVE m_lowercase [] (by decide)⟩

/-- C4: an entry whose modelLifecycle is missing entirely, or whose
modelLifecycle lacks a status, is excluded from the result and raises no
error. -/
theorem missing_lifecycle_excluded (m : ModelSummary) (acc : List EnabledModel)
    (h : m.modelLifecycle = none ∨
      ∃ lc : ModelLifecycle, m.modelLifecycle = some lc ∧ lc.status = none) :
    processModel m acc = Except.ok acc := by
  apply processModel_inactive
  rcases h with h | ⟨lc, hlc, hst⟩
  · simp [lifecycleStatus, h]
  · simp [lifecycleStatus, hlc, hst]

/-- Witness for C4 at a record without modelLifecycle and at a record whose
modelLifecycle has no status. -/
theorem missing_lifecycle_excluded_witness :
    processModel m_no_lifecycle [] = Except.ok [] ∧
      processModel m_no_status [] = Except.ok [] :=
  ⟨missing_lifecycle_excluded m_no_lifecycle [] (Or.inl rfl),
    missing_lifecycle_excluded m_no_status [] (Or.inr ⟨⟨none⟩, rfl, rfl⟩)⟩

/-- C5: the returned sequence is the pagination-order concatenation of the
pages, filtered and projected in place (never re-sorted), and the modality
fields default to the empty sequence when the source omits them. -/
theorem list_models_order_and_defaults :
    (∀ pagesL : List (List ModelSummary),
      (∀ m ∈ pagesL.flatten, lifecycleStatus m = some "ACTIVE" →
        m.modelId ≠ none ∧ m.providerName ≠ none) →
      list_foundation_models (pagesL.map Except.ok)
        = Except.ok ((pagesL.flatten.filter isActiveModel).map emittedRecord)) ∧
    (∀ m : ModelSummary, m.inputModalities = none →
      (emittedRecord m).inputModalities = []) ∧
    (∀ m : ModelSummary, m.outputModalities = none →
      (emittedRecord m).outputModalities = []) := by
  refine ⟨fun pagesL hreq => list_foundation_models_spec pagesL hreq, ?_, ?_⟩
  · intro m h
    simp [emittedRecord, h]
  · intro m h
    simp [emittedRecord, h]

/-- Witness for C5: two pages (one active model; one active plus one
inactive model, all without modality fields) yield exactly two records, in
page-then-within-page order, with empty modality sequences. -/
theorem list_models_order_and_defaults_witness :
    list_foundation_models ([[page1_m], [page2_active, page2_inactive]].map Except.ok)
      = Except.ok [⟨"a1", "pa", [], []⟩, ⟨"b1", "pb", [], []⟩] :=
  (list_models_order_and_defaults.1 [[page1_m], [page2_active, page2_inactive]]
    (by decide)).trans rfl

/-- C7: a structured service error is re-raised unchanged, as is any other
error; no partial result is ever returned — if any page fetch fails, the
whole call fails with exactly that error, even when earlier pages had
already produced records. -/
theorem list_models_reraises_unchanged :
    (∀ (pages : List (Except PyErr (List ModelSummary))) (e : PyErr),
      list_foundation_models_body pages = Except.error e →
      list_foundation_models pages = Except.error e) ∧
    (∀ (pre rest : List (Except PyErr (List ModelSummary))) (e : PyErr)
      (acc : List EnabledModel),
      runPages pre [] = Except.ok acc →
      list_foundation_models (pre ++ Except.error e :: rest) = Except.error e) := by
  constructor
  · exact fun pages e h => list_foundation_models_error pages e h
  · intro pre rest e acc h
    apply list_foundation_models_error
    unfold list_foundation_models_body
    rw [runPages_ok_extend pre (Except.error e :: rest) [] acc h]
    rfl

/-- Witness for C7: a ThrottlingException raised by the second page fetch
propagates unchanged although the first page already produced a record. -/
theorem list_models_reraises_unchanged_witness :
    list_foundation_models
      [Except.ok [stub_m1],
        Except.error (PyErr.clientError "ThrottlingException" "Rate exceeded")]
      = Except.error (PyErr.clientError "ThrottlingException" "Rate exceeded") :=
  list_models_reraises_unchanged.2 [Except.ok [stub_m1]] []
    (PyErr.clientError "ThrottlingException" "Rate exceeded") [⟨"m1", "p1", [], []⟩] rfl

/-- C8: for every region argument (defaulting to "us-east-1"), the client
configuration carries endpoint URL "https://bedrock.<region>.amazonaws.com",
connect timeout 5, read timeout 10, and a retry policy of at most 3 attempts
in "standard" mode. -/
theorem client_config_values (r : String) :
    (bedrock_client_config r).endpoint_url = "https://bedrock." ++ r ++ ".amazonaws.com" ∧
    (bedrock_client_config r).connect_timeout = 5 ∧
    (bedrock_client_config r).read_timeout = 10 ∧
    (bedrock_client_config r).retries.max_attempts = 3 ∧
    (bedrock_client_config r).retries.mode = "standard" ∧
    default_region_name = "us-east-1" :=
  ⟨rfl, rfl, rfl, rfl, rfl, rfl⟩

/-- C9: the produced client configuration does not depend on the boolean
result of the connectivity check — two runs whose checks return true and
false produce the same configuration, the check's result influencing the
logged warnings only. -/
theorem client_independent_of_check (d1 d2 : Except SocketError (List Char)) (r : String)
    (h1 : verify_private_connection d1 = true)
    (h2 : verify_private_connection d2 = false) :
    (get_bedrock_client_run d1 r).1 = (get_bedrock_client_run d2 r).1 ∧
    (get_bedrock_client_run d1 r).2 = [] ∧
    (get_bedrock_client_run d2 r).2 = ["Traffic might be flowing over public internet!"] := by
  refine ⟨rfl, ?_, ?_⟩
  · simp [get_bedrock_client_run, h1]
  · simp [get_bedrock_client_run, h2]

/-- Witness for C9: a run whose DNS resolved to the private "10.0.0.1" and a
run whose DNS resolution failed produce the same configuration. -/
theorem client_independent_of_check_witness :
    (get_bedrock_client_run (Except.ok ['1', '0', '.', '0', '.', '0', '.', '1']) "us-east-1").1
      = (get_bedrock_client_run (Except.error SocketError.gaierror) "us-east-1").1 :=
  (client_independent_of_check (Except.ok ['1', '0', '.', '0', '.', '0', '.', '1'])
    (Except.error SocketError.gaierror) "us-east-1" (by decide) rfl).1

/-- C10: an entry whose status is "ACTIVE" but which lacks modelId (or
providerName) makes the lookup raise KeyError, so the entire listing call
fails rather than returning a partial or defaulted record. -/
theorem active_missing_required_raises :
    (∀ (m : ModelSummary) (acc : List EnabledModel),
      lifecycleStatus m = some "ACTIVE" → m.modelId = none →
      processModel m acc = Except.error (PyErr.keyError "modelId")) ∧
    (∀ (m : ModelSummary) (acc : List EnabledModel) (mid : String),
      lifecycleStatus m = some "ACTIVE" → m.modelId = some mid → m.providerName = none →
      processModel m acc = Except.error (PyErr.keyError "providerName")) ∧
    list_foundation_models [Except.ok [stub_m1, m_no_id]]
      = Except.error (PyErr.keyError "modelId") := by
  refine ⟨?_, ?_, rfl⟩
  · intro m acc h1 h2
    simp [processModel, h1, h2]
  · intro m acc mid h1 h2 h3
    simp [processModel, h1, h2, h3]

/-- Witness for C10 at an active record without modelId and an active record
without providerName. -/
theorem active_missing_required_raises_witness :
    processModel m_no_id [] = Except.error (PyErr.keyError "modelId") ∧
      processModel m_no_provider [] = Except.error (PyErr.keyError "providerName") :=
  ⟨active_missing_required_raises.1 m_no_id [] rfl rfl,
    active_missing_required_raises.2.1 m_no_provider [] "m7" rfl rfl rfl⟩

example : verify_private_connection (Except.ok ['1', '0', '.', '0', '.', '0', '.', '1']) = true := by decide
example : verify_private_connection (Except.ok ['1', '7', '2', '.', '1', '6', '.', '0', '.', '1']) = true := by decide
example : verify_private_connection (Except.ok ['1', '7', '2', '.', '3', '2', '.', '0', '.', '1']) = false := by decide
example : verify_private_connection (Except.ok ['1', '9', '2', '.', '0', '.', '0', '.', '1']) = true := by decide
example : verify_private_connection (Except.ok ['1', '9', '2', '.', '1', '6', '8', '.', '0', '.', '1']) = false := by decide
example : verify_private_connection (Except.ok ['1', '7', '2', '.', 'x', '.', 'y', '.', 'z']) = false := by decide
example : verify_private_connection (Except.error SocketError.gaierror) = false := by decide
